import Mathlib

/-!
Shallow embedding of the sensor-selection and aggregation engine of
`monitor_server.py` (class `HardwareMonitorReader`, the UI-config helpers and
the `/api/config` view), together with proofs checking the natural-language
specification against it.

Modelling conventions:
* Python floats are modelled as `ℚ`; a raw sensor value is `Option SVal`,
  where `SVal` distinguishes a finite numeric value from NaN and ±infinity,
  so that `_is_finite` and the filtering behaviour are captured exactly.
* The provider enum lookups (`getattr(HardwareType, "Cpu", None)` etc.) are
  modelled in their resolved state: `HT_CPU = cpu`, `HT_MAINBOARD =
  mainboard`, `HT_RAM = memory`, `HT_NETWORK = network`, and all sensor-type
  enums resolved, which is the behaviour on the LibreHardwareMonitor library
  the script targets.
* Python string operations `.lower()`, `.strip()`, `in`, `.startswith` are
  modelled by executable functions on `List Char`.
* File/HTTP side effects are abstracted: `read_metrics` takes the flattened
  sensor list and the capture time as arguments; the config view takes the
  decoded request payload and returns the new in-memory and persisted state.
-/

/-- Python substring-prefix test on character lists. -/
def hasPfx : List Char → List Char → Bool
  | _, [] => true
  | [], _ :: _ => false
  | c :: cs, p :: ps => c == p && hasPfx cs ps

/-- Python substring containment (`pat in s`) on character lists. -/
def hasSub : List Char → List Char → Bool
  | [], pat => pat.isEmpty
  | c :: cs, pat => hasPfx (c :: cs) pat || hasSub cs pat

/-- Python `pat in s` for strings. -/
def strContains (s pat : String) : Bool := hasSub s.data pat.data

/-- Python `s.startswith(pat)`. -/
def strStarts (s pat : String) : Bool := hasPfx s.data pat.data

/-- Python `s.lower()` (ASCII, which covers every name pattern used). -/
def lowerStr (s : String) : String := ⟨s.data.map Char.toLower⟩

/-- Python `s.strip()`: drop whitespace from both ends. -/
def stripStr (s : String) : String :=
  ⟨((s.data.dropWhile Char.isWhitespace).reverse.dropWhile Char.isWhitespace).reverse⟩

/-- Python `any(k in name for k in pats)`. -/
def containsAny (name : String) (pats : List String) : Bool :=
  pats.any (fun p => strContains name p)

/-- Hardware (device) kinds, with the provider enum aliases resolved: the
script resolves `Cpu`, `Mainboard`/`Motherboard`, `Memory`, `Network` and the
three GPU vendor tags that exist in the library. -/
inductive HwType where
  | cpu
  | mainboard
  | memory
  | network
  | gpuNvidia
  | gpuAmd
  | gpuIntel
  | storage
  | other
deriving DecidableEq

/-- Membership of `gpu_types` in `_select_gpu_metrics` (the resolved GPU
vendor tags). -/
def isGpuType : HwType → Bool
  | .gpuNvidia => true
  | .gpuAmd => true
  | .gpuIntel => true
  | _ => false

/-- Sensor (measurement) kinds, resolved from the provider enum. -/
inductive SType where
  | temperature
  | load
  | clock
  | power
  | dat
  | other
deriving DecidableEq

/-- Raw numeric reading: a finite value, NaN, or ±infinity. -/
inductive SVal where
  | fin (q : ℚ)
  | nan
  | inf
  | ninf
deriving DecidableEq

/-- One flattened sensor row as produced by `_collect_sensors`: the selectors
only ever consult the top-level parent hardware type, the sensor type, the
name and the value, so only those are modelled. -/
structure Sensor where
  parent : HwType
  stype : SType
  name : String
  value : Option SVal
deriving DecidableEq

/-- Extract the finite numeric content of a raw value (`float(value)` guarded
by `math.isfinite`). -/
def finVal : Option SVal → Option ℚ
  | some (.fin q) => some q
  | _ => none

/-- Translation of `HardwareMonitorReader._is_finite`: true iff the value is
present and finite. -/
def _is_finite (v : Option SVal) : Bool := (finVal v).isSome

/-- Python `max(l)` guarded by `if l` is `l.max?`; `sum(l)/len(l)` guarded by
`if l` is `avgq l`. -/
def avgq (l : List ℚ) : Option ℚ := if l.isEmpty then none else some (l.sum / l.length)

/-- Value contributed by one sensor to a pool with membership guard `g`:
empty unless the guard holds and the value is finite. -/
def contrib (g : Sensor → Bool) (s : Sensor) : List ℚ :=
  if g s then (finVal s.value).toList else []

/-- Translation of the simple collection loops: append `float(sensor.Value)`
for every sensor passing the guard with a finite value, in list order. -/
def poolOf (g : Sensor → Bool) : List Sensor → List ℚ
  | [] => []
  | s :: rest => contrib g s ++ poolOf g rest

/-- The four temperature pools built by the loop in `_select_cpu_temps`. -/
structure CpuTempPools where
  ccd : List ℚ
  core : List ℚ
  pkg : List ℚ
  mb : List ℚ
deriving DecidableEq

/-- Loop body of `_select_cpu_temps`: skip non-temperature sensors, then
classify by parent hardware and name with the source's if/elif chain, adding
the value only when finite. -/
def cpuTempStep (p : CpuTempPools) (s : Sensor) : CpuTempPools :=
  if s.stype ≠ SType.temperature then p else
  let name := lowerStr s.name
  if s.parent = HwType.cpu then
    if strContains name "ccd" then
      (if _is_finite s.value then { p with ccd := p.ccd ++ (finVal s.value).toList } else p)
    else if strContains name "core" then
      (if _is_finite s.value then { p with core := p.core ++ (finVal s.value).toList } else p)
    else if containsAny name ["package", "tdie", "tctl", "cpu"] then
      (if _is_finite s.value then { p with pkg := p.pkg ++ (finVal s.value).toList } else p)
    else p
  else if s.parent = HwType.mainboard then
    if containsAny name ["cpu", "cpu socket", "package", "tdie", "tctl"] then
      (if _is_finite s.value then { p with mb := p.mb ++ (finVal s.value).toList } else p)
    else p
  else p

/-- Translation of `HardwareMonitorReader._select_cpu_temps`; returns
`(core_avg, hotspot)`. -/
def _select_cpu_temps (sensors : List Sensor) : Option ℚ × Option ℚ :=
  let p := sensors.foldl cpuTempStep ⟨[], [], [], []⟩
  let hotspot : Option ℚ :=
    if ¬p.core.isEmpty then p.core.max?
    else if ¬p.pkg.isEmpty then p.pkg.max?
    else if ¬p.mb.isEmpty then p.mb.max?
    else none
  let vals : List ℚ :=
    if ¬p.ccd.isEmpty then p.ccd
    else if ¬p.core.isEmpty then p.core
    else if ¬p.pkg.isEmpty then p.pkg
    else if ¬p.mb.isEmpty then p.mb
    else []
  (avgq vals, hotspot)

/-- Name test of the first pass of `_select_cpu_total_load`. -/
def cpuTotalName (s : Sensor) : Bool :=
  stripStr (lowerStr s.name) == "cpu total" || stripStr (lowerStr s.name) == "total"

/-- First pass of `_select_cpu_total_load`: return the first CPU load sensor
named "cpu total"/"total" whose value is finite. -/
def findCpuTotal : List Sensor → Option ℚ
  | [] => none
  | s :: rest =>
    if s.parent = HwType.cpu ∧ s.stype = SType.load ∧ cpuTotalName s = true then
      match finVal s.value with
      | some v => some v
      | none => findCpuTotal rest
    else findCpuTotal rest

/-- Guard of the fallback pass of `_select_cpu_total_load`. -/
def cpuLoadGuard (s : Sensor) : Bool :=
  s.parent == HwType.cpu && s.stype == SType.load

/-- Translation of `HardwareMonitorReader._select_cpu_total_load`. -/
def _select_cpu_total_load (sensors : List Sensor) : Option ℚ :=
  match findCpuTotal sensors with
  | some v => some v
  | none => avgq (poolOf cpuLoadGuard sensors)

/-- Guard of the clock loop in `_select_cpu_core_clocks` (the source
lowercases the name, then keeps names starting with "cpu core" or "core" or
containing "clock"). -/
def cpuClockGuard (s : Sensor) : Bool :=
  s.parent == HwType.cpu && s.stype == SType.clock &&
    (strStarts (lowerStr s.name) "cpu core" || strStarts (lowerStr s.name) "core" ||
      strContains (lowerStr s.name) "clock")

/-- Translation of `HardwareMonitorReader._select_cpu_core_clocks`; returns
`(max_clock, avg_clock)`. -/
def _select_cpu_core_clocks (sensors : List Sensor) : Option ℚ × Option ℚ :=
  let clocks := poolOf cpuClockGuard sensors
  if ¬clocks.isEmpty then (clocks.max?, avgq clocks) else (none, none)

/-- State of the loop in `_select_ram_used_free_gb`. -/
structure RamUFL where
  used : Option ℚ
  free : Option ℚ
  load : Option ℚ
deriving DecidableEq

/-- Name condition of the load-capture branch of `_select_ram_used_free_gb`. -/
def ramLoadName (name : String) : Bool :=
  (name == "memory" || name == "ram") || (strContains name "memory" || strContains name "ram") ||
    (strContains name "load" || strContains name "usage")

/-- Loop body of `_select_ram_used_free_gb`: only Memory-device sensors, skip
"virtual" names, then (independent branches) record Data "used" /
"available"/"free" values and Load values, each overwriting earlier matches. -/
def ramUFLStep (st : RamUFL) (s : Sensor) : RamUFL :=
  if s.parent ≠ HwType.memory then st else
  let name := lowerStr s.name
  if strContains name "virtual" then st else
  let st :=
    if s.stype = SType.dat then
      let st := if strContains name "used" && _is_finite s.value then { st with used := finVal s.value } else st
      if (strContains name "available" || strContains name "free") && _is_finite s.value then
        { st with free := finVal s.value } else st
    else st
  if s.stype == SType.load && ramLoadName name && _is_finite s.value then
    { st with load := finVal s.value } else st

/-- Translation of `HardwareMonitorReader._select_ram_used_free_gb`; returns
`(used_gb, free_gb, load_percent)`. -/
def _select_ram_used_free_gb (sensors : List Sensor) : RamUFL :=
  sensors.foldl ramUFLStep ⟨none, none, none⟩

/-- First loop of `_select_ram_usage`: the first Memory-device Load sensor
with a finite value (no name condition, no "virtual" exclusion). -/
def ramLoadFirst : List Sensor → Option ℚ
  | [] => none
  | s :: rest =>
    if s.parent = HwType.memory ∧ s.stype = SType.load then
      match finVal s.value with
      | some v => some v
      | none => ramLoadFirst rest
    else ramLoadFirst rest

/-- Loop body of the fallback scan of `_select_ram_usage`: Memory-device Data
sensors named "used" / "available", each overwriting earlier matches. -/
def ramUAStep (st : Option ℚ × Option ℚ) (s : Sensor) : Option ℚ × Option ℚ :=
  if s.parent ≠ HwType.memory then st else
  if s.stype ≠ SType.dat then st else
  let name := lowerStr s.name
  let u := if strContains name "used" && _is_finite s.value then finVal s.value else st.1
  let a := if strContains name "available" && _is_finite s.value then finVal s.value else st.2
  (u, a)

/-- Translation of `HardwareMonitorReader._select_ram_usage`: prefer the
first finite Memory Load value, else derive from the last finite "used" and
"available" Data values when their sum is positive. -/
def _select_ram_usage (sensors : List Sensor) : Option ℚ :=
  match ramLoadFirst sensors with
  | some v => some v
  | none =>
    match sensors.foldl ramUAStep (none, none) with
    | (some used, some available) =>
      if used + available > 0 then some (used / (used + available) * 100) else none
    | _ => none

/-- The six pools built by the loop in `_select_gpu_metrics`. -/
structure GpuPools where
  temps : List ℚ
  hot : List ℚ
  loads : List ℚ
  powers : List ℚ
  coreClocks : List ℚ
  memClocks : List ℚ
deriving DecidableEq

/-- Hotspot name test in `_select_gpu_metrics`. -/
def gpuHotName (name : String) : Bool :=
  containsAny name ["hot spot", "hotspot", "junction"]

/-- Load name test in `_select_gpu_metrics`. -/
def gpuLoadName (name : String) : Bool :=
  strContains name "core" || (name == "gpu core" || name == "gpu")

/-- Loop body of `_select_gpu_metrics`: only GPU-vendor parents; the four
measurement kinds are tested by independent `if`s, temperatures split by
hotspot names, clocks by an if/elif on "memory" vs "core" names. -/
def gpuStep (p : GpuPools) (s : Sensor) : GpuPools :=
  if ¬(isGpuType s.parent) then p else
  let p :=
    if s.stype = SType.temperature then
      let name := lowerStr s.name
      if gpuHotName name then
        (if _is_finite s.value then { p with hot := p.hot ++ (finVal s.value).toList } else p)
      else
        (if _is_finite s.value then { p with temps := p.temps ++ (finVal s.value).toList } else p)
    else p
  let p :=
    if s.stype = SType.load then
      let name := lowerStr s.name
      if gpuLoadName name then
        (if _is_finite s.value then { p with loads := p.loads ++ (finVal s.value).toList } else p)
      else p
    else p
  let p :=
    if s.stype = SType.power then
      (if _is_finite s.value then { p with powers := p.powers ++ (finVal s.value).toList } else p)
    else p
  if s.stype = SType.clock then
    let name := lowerStr s.name
    if strContains name "memory" && _is_finite s.value then
      { p with memClocks := p.memClocks ++ (finVal s.value).toList }
    else if (strContains name "gpu core" || strContains name "core") && _is_finite s.value then
      { p with coreClocks := p.coreClocks ++ (finVal s.value).toList }
    else p
  else p

/-- Translation of `HardwareMonitorReader._select_gpu_metrics`; returns
`(core_temp, hotspot, load, power, core_clock, mem_clock)`. -/
def _select_gpu_metrics (sensors : List Sensor) :
    Option ℚ × Option ℚ × Option ℚ × Option ℚ × Option ℚ × Option ℚ :=
  let p := sensors.foldl gpuStep ⟨[], [], [], [], [], []⟩
  (p.temps.max?, p.hot.max?, p.loads.max?, p.powers.max?, p.coreClocks.max?, p.memClocks.max?)

/-- Network-load collection loop inlined in `read_metrics`: Network-parent
Load sensors with a finite value additionally restricted to the range
0..100 inclusive; out-of-range values are dropped, not clamped. -/
def netPool : List Sensor → List ℚ
  | [] => []
  | s :: rest =>
    (if s.parent = HwType.network ∧ s.stype = SType.load then
      match finVal s.value with
      | some v => if 0 ≤ v ∧ v ≤ 100 then [v] else []
      | none => []
    else []) ++ netPool rest

/-- Value of `net_load` in `read_metrics`: max of the surviving values. -/
def netLoadSel (sensors : List Sensor) : Option ℚ := (netPool sensors).max?

/-- Guard of the CPU package power loop inlined in `read_metrics`. -/
def cpuPowerGuard (s : Sensor) : Bool :=
  s.parent == HwType.cpu && s.stype == SType.power &&
    containsAny (lowerStr s.name) ["package", "cpu", "ppt", "socket", "total"]

/-- Value of `cpu_power` in `read_metrics`. -/
def cpuPowerSel (sensors : List Sensor) : Option ℚ := (poolOf cpuPowerGuard sensors).max?

/-- Round half to even, the rounding mode of Python `round` (exact on the
rational model). -/
def rhe (q : ℚ) : ℤ :=
  let f : ℤ := ⌊q⌋
  let r : ℚ := q - f
  if r < 1/2 then f else if 1/2 < r then f + 1 else if f % 2 = 0 then f else f + 1

/-- Python `round(value, digits)` for nonnegative `digits` on the rational
model. -/
def roundq (q : ℚ) (digits : Nat) : ℚ := (rhe (q * 10 ^ digits) : ℚ) / 10 ^ digits

/-- Translation of `_round_or_none`: keep absence, otherwise round. -/
def _round_or_none (v : Option ℚ) (digits : Nat) : Option ℚ :=
  match v with
  | none => none
  | some q => some (roundq q digits)

/-- CPU section of the snapshot returned by `read_metrics`. -/
structure CpuMetrics where
  core_temperature_c : Option ℚ
  hotspot_temperature_c : Option ℚ
  usage_percent : Option ℚ
  max_clock_mhz : Option ℚ
  avg_clock_mhz : Option ℚ
  power_w : Option ℚ
deriving DecidableEq

/-- RAM section of the snapshot returned by `read_metrics`. -/
structure RamMetrics where
  usage_percent : Option ℚ
  used_gb : Option ℚ
  free_gb : Option ℚ
deriving DecidableEq

/-- GPU section of the snapshot returned by `read_metrics`. -/
structure GpuMetrics where
  core_temperature_c : Option ℚ
  hotspot_temperature_c : Option ℚ
  usage_percent : Option ℚ
  core_clock_mhz : Option ℚ
  memory_clock_mhz : Option ℚ
  power_w : Option ℚ
deriving DecidableEq

/-- Network section of the snapshot returned by `read_metrics`. -/
structure NetMetrics where
  usage_percent : Option ℚ
deriving DecidableEq

/-- Snapshot returned by `read_metrics`. -/
structure Snapshot where
  cpu : CpuMetrics
  ram : RamMetrics
  gpu : GpuMetrics
  net : NetMetrics
  timestamp : ℚ
deriving DecidableEq

/-- Translation of `HardwareMonitorReader.read_metrics` on an already
refreshed and flattened sensor list; `now` is the value of `time.time()`.
Note that the RAM `usage_percent` field is fed by the `load_percent`
component of `_select_ram_used_free_gb` — `_select_ram_usage` is not called
here (nor anywhere else in the source). -/
def read_metrics (sensors : List Sensor) (now : ℚ) : Snapshot :=
  let cpuTemps := _select_cpu_temps sensors
  let cpu_load := _select_cpu_total_load sensors
  let cpuClocks := _select_cpu_core_clocks sensors
  let ramUFL := _select_ram_used_free_gb sensors
  let gpu := _select_gpu_metrics sensors
  let net_load := netLoadSel sensors
  let cpu_power := cpuPowerSel sensors
  { cpu :=
      { core_temperature_c := _round_or_none cpuTemps.1 1
        hotspot_temperature_c := _round_or_none cpuTemps.2 1
        usage_percent := _round_or_none cpu_load 1
        max_clock_mhz := _round_or_none cpuClocks.1 0
        avg_clock_mhz := _round_or_none cpuClocks.2 0
        power_w := _round_or_none cpu_power 1 }
    ram :=
      { usage_percent := _round_or_none ramUFL.load 1
        used_gb := _round_or_none ramUFL.used 1
        free_gb := _round_or_none ramUFL.free 1 }
    gpu :=
      { core_temperature_c := _round_or_none gpu.1 1
        hotspot_temperature_c := _round_or_none gpu.2.1 1
        usage_percent := _round_or_none gpu.2.2.1 1
        core_clock_mhz := _round_or_none gpu.2.2.2.1 0
        memory_clock_mhz := _round_or_none gpu.2.2.2.2.1 0
        power_w := _round_or_none gpu.2.2.2.2.2 1 }
    net := { usage_percent := _round_or_none net_load 1 }
    timestamp := now }

/-- Canonical sensor keys in default order (`SENSOR_KEYS_DEFAULT`). -/
def SENSOR_KEYS_DEFAULT : List String :=
  ["cpu_core_temp", "cpu_hotspot_temp", "cpu_usage", "net_load", "cpu_clock_max",
   "cpu_clock_avg", "cpu_power", "ram_usage", "ram_used", "ram_free",
   "gpu_core_temp", "gpu_hotspot_temp", "gpu_clock", "gpu_mem_clock",
   "gpu_usage", "gpu_power"]

/-- Lookup in `ALIAS_TO_CANON` with the `dict.get(key, key)` default: the
single legacy alias maps `cpu_temp` to `cpu_core_temp`. -/
def aliasToCanon (key : String) : String :=
  if key = "cpu_temp" then "cpu_core_temp" else key

/-- Loop of `_normalize_order`, carrying the `seen` set and emitting the kept
keys in order; at the end the missing canonical keys are appended in default
order (`CANON_TO_EXTERNAL` is empty, so no external renaming applies). -/
def normLoop : List String → List String → List String
  | [], seen => SENSOR_KEYS_DEFAULT.filter (fun k => k ∉ seen)
  | key :: rest, seen =>
    let canon := aliasToCanon key
    if canon ∈ SENSOR_KEYS_DEFAULT ∧ canon ∉ seen then
      canon :: normLoop rest (canon :: seen)
    else normLoop rest seen

/-- Translation of `_normalize_order`. -/
def _normalize_order (order : List String) : List String := normLoop order []

/-- Python `",".join(keys)`. -/
def joinComma : List String → String
  | [] => ""
  | [s] => s
  | s :: rest => s ++ "," ++ joinComma rest

/-- Splitting a character list at commas (Python `s.split(",")`). -/
def splitCommaAux : List Char → List Char → List (List Char)
  | [], cur => [cur.reverse]
  | c :: rest, cur =>
    if c = ',' then cur.reverse :: splitCommaAux rest [] else splitCommaAux rest (c :: cur)

/-- Order-string parsing in `load_ui_config`:
`[s.strip() for s in order_str.split(",") if s.strip()]`. -/
def parseOrderStr (s : String) : List String :=
  ((splitCommaAux s.data []).map (fun l => stripStr ⟨l⟩)).filter (fun t => t ≠ "")

/-- In-memory UI configuration (`UI_CONFIG` and the parsed view of the
persisted `config.ini` section). -/
structure UiConfig where
  order : List String
  interval : ℚ
deriving DecidableEq

/-- Interval clamp applied on configuration write and load:
`max(0.05, float(v))`. -/
def clampInterval (v : ℚ) : ℚ := max (1/20) v

/-- Translation of `save_ui_config` at the key/value level: a `none` argument
leaves the stored key unchanged; the order is normalized and joined; the
interval is clamped and then written with `f"{val:.3f}"`, i.e. rounded to
three decimal places. -/
def save_ui_config (disk : UiConfig) (order : Option (List String))
    (update_interval_sec : Option ℚ) : UiConfig :=
  { order := match order with
      | some o => _normalize_order o
      | none => disk.order
    interval := match update_interval_sec with
      | some v => roundq (clampInterval v) 3
      | none => disk.interval }

/-- Value submitted for `update_interval_sec` in a configuration write (or
read back from the persisted file): absent, convertible to a number by
`float(...)`, or present but raising on conversion (e.g. the string "abc"). -/
inductive IntervalField where
  | absent
  | numVal (q : ℚ)
  | nonNumeric
deriving DecidableEq

/-- Interval handling of `load_ui_config`: clamp a convertible value, fall
back to 1.0 when the key is missing (the fallback string "1.0") or raises. -/
def loadInterval : IntervalField → ℚ
  | .numVal q => clampInterval q
  | _ => 1

/-- Responses of the `/api/config` view. -/
inductive ConfigResp where
  | ok
  | badRequest
deriving DecidableEq

/-- Process-wide state touched by the config view: the in-memory `UI_CONFIG`
and the persisted file contents (as parsed back). -/
structure ServerState where
  memCfg : UiConfig
  diskCfg : UiConfig
deriving DecidableEq

/-- Translation of the POST branch of `config_view`. `body` is `none` when
the request body is not well-formed JSON (→ 400); otherwise it carries the
`order` field (`none` covers both an absent field and a non-list value, which
the `isinstance` check ignores) and the `update_interval_sec` field. A
non-convertible interval raises inside the `try`, is swallowed by the bare
`except: pass`, and leaves `UI_CONFIG` unchanged; the function then saves the
current in-memory values (persistence I/O itself is modelled as succeeding). -/
def config_view_post (st : ServerState)
    (body : Option (Option (List String) × IntervalField)) : ConfigResp × ServerState :=
  match body with
  | none => (ConfigResp.badRequest, st)
  | some (order, intervalField) =>
    let cfg := st.memCfg
    let cfg := match order with
      | some o => { cfg with order := _normalize_order o }
      | none => cfg
    let cfg := match intervalField with
      | .numVal q => { cfg with interval := clampInterval q }
      | _ => cfg
    let disk := save_ui_config st.diskCfg (some cfg.order) (some cfg.interval)
    (ConfigResp.ok, { memCfg := cfg, diskCfg := disk })

/-- Specification-side guard: CPU CCD temperature pool membership. -/
def ccdGuard (s : Sensor) : Bool :=
  s.stype == SType.temperature && s.parent == HwType.cpu && strContains (lowerStr s.name) "ccd"

/-- Specification-side guard: CPU Core temperature pool membership (a name
already containing "ccd" is claimed by the CCD pool). -/
def coreGuard (s : Sensor) : Bool :=
  s.stype == SType.temperature && s.parent == HwType.cpu &&
    !strContains (lowerStr s.name) "ccd" && strContains (lowerStr s.name) "core"

/-- Specification-side guard: CPU Package temperature pool membership. -/
def pkgGuard (s : Sensor) : Bool :=
  s.stype == SType.temperature && s.parent == HwType.cpu &&
    !strContains (lowerStr s.name) "ccd" && !strContains (lowerStr s.name) "core" &&
    containsAny (lowerStr s.name) ["package", "tdie", "tctl", "cpu"]

/-- Specification-side guard: Mainboard-CPU temperature pool membership. -/
def mbCpuGuard (s : Sensor) : Bool :=
  s.stype == SType.temperature && s.parent == HwType.mainboard &&
    containsAny (lowerStr s.name) ["cpu", "cpu socket", "package", "tdie", "tctl"]

/-- First non-empty list of a sequence of candidate pools. -/
def firstNonempty : List (List ℚ) → List ℚ
  | [] => []
  | l :: rest => if l.isEmpty then firstNonempty rest else l

/-- Specification formula for CPU `core_temp`: average of the first
non-empty pool among CCD, Core, Package, Mainboard-CPU. -/
def coreTempSpec (sensors : List Sensor) : Option ℚ :=
  avgq (firstNonempty
    [poolOf ccdGuard sensors, poolOf coreGuard sensors,
     poolOf pkgGuard sensors, poolOf mbCpuGuard sensors])

/-- Specification formula for CPU `hotspot_temp`: max of the Core pool, else
of the Package pool, else of the Mainboard-CPU pool — the CCD pool is never
consulted. -/
def hotspotSpec (sensors : List Sensor) : Option ℚ :=
  if poolOf coreGuard sensors ≠ [] then (poolOf coreGuard sensors).max?
  else if poolOf pkgGuard sensors ≠ [] then (poolOf pkgGuard sensors).max?
  else if poolOf mbCpuGuard sensors ≠ [] then (poolOf mbCpuGuard sensors).max?
  else none

/-- Specification-side guard: GPU core-temperature pool (GPU-scoped
temperature sensors without a hotspot name). -/
def gpuTempCoreGuard (s : Sensor) : Bool :=
  isGpuType s.parent && s.stype == SType.temperature && !gpuHotName (lowerStr s.name)

/-- Specification-side guard: GPU hotspot-temperature pool. -/
def gpuTempHotGuard (s : Sensor) : Bool :=
  isGpuType s.parent && s.stype == SType.temperature && gpuHotName (lowerStr s.name)

/-- Specification-side guard: GPU load pool. -/
def gpuLoadGuard (s : Sensor) : Bool :=
  isGpuType s.parent && s.stype == SType.load && gpuLoadName (lowerStr s.name)

/-- Specification-side guard: GPU power pool (every GPU power sensor). -/
def gpuPowerGuard (s : Sensor) : Bool :=
  isGpuType s.parent && s.stype == SType.power

/-- Specification-side guard: GPU memory-clock pool. -/
def gpuMemClockGuard (s : Sensor) : Bool :=
  isGpuType s.parent && s.stype == SType.clock && strContains (lowerStr s.name) "memory"

/-- Specification-side guard: GPU core-clock pool (clock names not claimed
by the memory-clock branch). -/
def gpuCoreClockGuard (s : Sensor) : Bool :=
  isGpuType s.parent && s.stype == SType.clock && !strContains (lowerStr s.name) "memory" &&
    (strContains (lowerStr s.name) "gpu core" || strContains (lowerStr s.name) "core")

/-- Specification-side guard: Network-device Load sensors (before the range
filter). -/
def netLoadGuard (s : Sensor) : Bool :=
  s.parent == HwType.network && s.stype == SType.load

/-- Specification-side guard: Memory-device Load sensors, no name condition
(the direct-Load path of `_select_ram_usage`). -/
def ramLoadAnyGuard (s : Sensor) : Bool :=
  s.parent == HwType.memory && s.stype == SType.load

/-- Specification-side guard: "used" Data sensors of the `_select_ram_usage`
fallback scan (no "virtual" exclusion there). -/
def ramUsageUsedGuard (s : Sensor) : Bool :=
  s.parent == HwType.memory && s.stype == SType.dat && strContains (lowerStr s.name) "used"

/-- Specification-side guard: "available" Data sensors of the
`_select_ram_usage` fallback scan. -/
def ramUsageAvailGuard (s : Sensor) : Bool :=
  s.parent == HwType.memory && s.stype == SType.dat && strContains (lowerStr s.name) "available"

/-- Specification-side guard: "used" Data sensors of
`_select_ram_used_free_gb` (which does exclude "virtual" names). -/
def ramUsedGuard (s : Sensor) : Bool :=
  s.parent == HwType.memory && !strContains (lowerStr s.name) "virtual" &&
    s.stype == SType.dat && strContains (lowerStr s.name) "used"

/-- Specification-side guard: "available"/"free" Data sensors of
`_select_ram_used_free_gb`. -/
def ramFreeGuard (s : Sensor) : Bool :=
  s.parent == HwType.memory && !strContains (lowerStr s.name) "virtual" &&
    s.stype == SType.dat &&
    (strContains (lowerStr s.name) "available" || strContains (lowerStr s.name) "free")

/-- Specification-side guard: Load sensors captured by
`_select_ram_used_free_gb` as the usage percentage. -/
def ramUflLoadGuard (s : Sensor) : Bool :=
  s.parent == HwType.memory && !strContains (lowerStr s.name) "virtual" &&
    s.stype == SType.load && ramLoadName (lowerStr s.name)

/-- Last element of a value list, with a default for the empty list: the
functional description of Python last-write-wins assignment. -/
def olast (d : Option ℚ) (l : List ℚ) : Option ℚ :=
  match l.getLast? with
  | some v => some v
  | none => d

theorem finVal_of_not_finite {v : Option SVal} (h : _is_finite v = false) : finVal v = none := by
  cases hv : finVal v with
  | none => rfl
  | some q => rw [_is_finite, hv] at h; simp at h

theorem contrib_of_not_finite (g : Sensor → Bool) {s : Sensor}
    (h : _is_finite s.value = false) : contrib g s = [] := by
  rw [contrib, finVal_of_not_finite h]
  simp

theorem poolOf_append (g : Sensor → Bool) (l₁ l₂ : List Sensor) :
    poolOf g (l₁ ++ l₂) = poolOf g l₁ ++ poolOf g l₂ := by
  induction l₁ with
  | nil => simp [poolOf]
  | cons s rest ih => simp [poolOf, ih]

theorem cpuTempStep_eq (p : CpuTempPools) (s : Sensor) :
    cpuTempStep p s =
      ⟨p.ccd ++ contrib ccdGuard s, p.core ++ contrib coreGuard s,
       p.pkg ++ contrib pkgGuard s, p.mb ++ contrib mbCpuGuard s⟩ := by
  rcases s with ⟨par, st, nm, v⟩
  rcases hv : finVal v with _ | q <;>
    simp only [cpuTempStep, contrib, ccdGuard, coreGuard, pkgGuard, mbCpuGuard, _is_finite, hv] <;>
    by_cases ht : st = SType.temperature <;>
    by_cases hpc : par = HwType.cpu <;>
    by_cases hpm : par = HwType.mainboard <;>
    by_cases h1 : strContains (lowerStr nm) "ccd" <;>
    by_cases h2 : strContains (lowerStr nm) "core" <;>
    by_cases h3 : containsAny (lowerStr nm) ["package", "tdie", "tctl", "cpu"] <;>
    by_cases h4 : containsAny (lowerStr nm) ["cpu", "cpu socket", "package", "tdie", "tctl"] <;>
    simp_all

theorem foldl_cpuTempStep (l : List Sensor) : ∀ p : CpuTempPools,
    l.foldl cpuTempStep p =
      ⟨p.ccd ++ poolOf ccdGuard l, p.core ++ poolOf coreGuard l,
       p.pkg ++ poolOf pkgGuard l, p.mb ++ poolOf mbCpuGuard l⟩ := by
  induction l with
  | nil => intro p; simp [poolOf]
  | cons s rest ih =>
    intro p
    rw [List.foldl_cons, cpuTempStep_eq, ih]
    simp [poolOf, List.append_assoc]

theorem gpuStep_of_not_finite (p : GpuPools) {s : Sensor}
    (h : _is_finite s.value = false) : gpuStep p s = p := by
  simp [gpuStep, h]

theorem cpuTempStep_of_not_finite (p : CpuTempPools) {s : Sensor}
    (h : _is_finite s.value = false) : cpuTempStep p s = p := by
  simp [cpuTempStep, h]

theorem ramUFLStep_of_not_finite (st : RamUFL) {s : Sensor}
    (h : _is_finite s.value = false) : ramUFLStep st s = st := by
  simp [ramUFLStep, h]

theorem ramUAStep_of_not_finite (st : Option ℚ × Option ℚ) {s : Sensor}
    (h : _is_finite s.value = false) : ramUAStep st s = st := by
  simp [ramUAStep, h]

set_option maxHeartbeats 1600000 in
theorem gpuStep_eq (p : GpuPools) (s : Sensor) :
    gpuStep p s =
      ⟨p.temps ++ contrib gpuTempCoreGuard s, p.hot ++ contrib gpuTempHotGuard s,
       p.loads ++ contrib gpuLoadGuard s, p.powers ++ contrib gpuPowerGuard s,
       p.coreClocks ++ contrib gpuCoreClockGuard s, p.memClocks ++ contrib gpuMemClockGuard s⟩ := by
  by_cases hf : _is_finite s.value
  case neg =>
    simp only [Bool.not_eq_true] at hf
    simp [gpuStep_of_not_finite p hf, contrib_of_not_finite _ hf]
  case pos =>
    rcases s with ⟨par, st, nm, v⟩
    obtain ⟨q, hq⟩ := Option.isSome_iff_exists.mp (by rwa [_is_finite] at hf)
    by_cases hg : isGpuType par
    · simp only [gpuStep, contrib, gpuTempCoreGuard, gpuTempHotGuard, gpuLoadGuard,
        gpuPowerGuard, gpuCoreClockGuard, gpuMemClockGuard, _is_finite] at hq ⊢
      cases st <;>
        by_cases h1 : gpuHotName (lowerStr nm) <;>
        by_cases h3 : strContains (lowerStr nm) "memory" <;>
        by_cases h2 : gpuLoadName (lowerStr nm) <;>
        by_cases h4 : strContains (lowerStr nm) "gpu core" <;>
        by_cases h5 : strContains (lowerStr nm) "core" <;>
        simp_all
    · simp_all [gpuStep, contrib, gpuTempCoreGuard, gpuTempHotGuard, gpuLoadGuard,
        gpuPowerGuard, gpuCoreClockGuard, gpuMemClockGuard]

theorem foldl_gpuStep (l : List Sensor) : ∀ p : GpuPools,
    l.foldl gpuStep p =
      ⟨p.temps ++ poolOf gpuTempCoreGuard l, p.hot ++ poolOf gpuTempHotGuard l,
       p.loads ++ poolOf gpuLoadGuard l, p.powers ++ poolOf gpuPowerGuard l,
       p.coreClocks ++ poolOf gpuCoreClockGuard l, p.memClocks ++ poolOf gpuMemClockGuard l⟩ := by
  induction l with
  | nil => intro p; simp [poolOf]
  | cons s rest ih =>
    intro p
    rw [List.foldl_cons, gpuStep_eq, ih]
    simp [poolOf, List.append_assoc]

theorem olast_append (d : Option ℚ) (xs ys : List ℚ) :
    olast d (xs ++ ys) = olast (olast d xs) ys := by
  cases hys : ys.getLast? with
  | some v =>
    have : (xs ++ ys).getLast? = some v := by
      cases ys with
      | nil => simp at hys
      | cons b bs => rw [List.getLast?_append_cons, hys]
    simp [olast, this, hys]
  | none =>
    have hy : ys = [] := by
      cases ys with
      | nil => rfl
      | cons b bs => simp [List.getLast?_eq_getLast] at hys
    subst hy
    simp [olast]

theorem olast_single (d : Option ℚ) (v : ℚ) : olast d [v] = some v := by
  simp [olast]

theorem olast_nil (d : Option ℚ) : olast d [] = d := rfl

set_option maxHeartbeats 1600000 in
theorem ramUFLStep_eq (st : RamUFL) (s : Sensor) :
    ramUFLStep st s =
      ⟨olast st.used (contrib ramUsedGuard s), olast st.free (contrib ramFreeGuard s),
       olast st.load (contrib ramUflLoadGuard s)⟩ := by
  by_cases hf : _is_finite s.value
  case neg =>
    simp only [Bool.not_eq_true] at hf
    simp [ramUFLStep_of_not_finite st hf, contrib_of_not_finite _ hf, olast_nil]
  case pos =>
    rcases s with ⟨par, sty, nm, v⟩
    obtain ⟨q, hq⟩ := Option.isSome_iff_exists.mp (by rwa [_is_finite] at hf)
    by_cases hm : par = HwType.memory
    · by_cases hvt : strContains (lowerStr nm) "virtual"
      · simp_all [ramUFLStep, contrib, ramUsedGuard, ramFreeGuard, ramUflLoadGuard, olast_nil]
      · simp only [ramUFLStep, contrib, ramUsedGuard, ramFreeGuard, ramUflLoadGuard,
          _is_finite, olast] at hq ⊢
        cases sty <;>
          by_cases h1 : strContains (lowerStr nm) "used" <;>
          by_cases h2 : strContains (lowerStr nm) "available" <;>
          by_cases h3 : strContains (lowerStr nm) "free" <;>
          by_cases h4 : ramLoadName (lowerStr nm) <;>
          simp_all
    · simp_all [ramUFLStep, contrib, ramUsedGuard, ramFreeGuard, ramUflLoadGuard, olast_nil]

theorem foldl_ramUFLStep (l : List Sensor) : ∀ st : RamUFL,
    l.foldl ramUFLStep st =
      ⟨olast st.used (poolOf ramUsedGuard l), olast st.free (poolOf ramFreeGuard l),
       olast st.load (poolOf ramUflLoadGuard l)⟩ := by
  induction l with
  | nil => intro st; simp [poolOf, olast_nil]
  | cons s rest ih =>
    intro st
    rw [List.foldl_cons, ramUFLStep_eq, ih]
    simp [poolOf, olast_append]

set_option maxHeartbeats 800000 in
theorem ramUAStep_eq (st : Option ℚ × Option ℚ) (s : Sensor) :
    ramUAStep st s =
      (olast st.1 (contrib ramUsageUsedGuard s), olast st.2 (contrib ramUsageAvailGuard s)) := by
  by_cases hf : _is_finite s.value
  case neg =>
    simp only [Bool.not_eq_true] at hf
    simp [ramUAStep_of_not_finite st hf, contrib_of_not_finite _ hf, olast_nil]
  case pos =>
    rcases s with ⟨par, sty, nm, v⟩
    obtain ⟨q, hq⟩ := Option.isSome_iff_exists.mp (by rwa [_is_finite] at hf)
    simp only [ramUAStep, contrib, ramUsageUsedGuard, ramUsageAvailGuard,
      _is_finite, olast] at hq ⊢
    by_cases hm : par = HwType.memory <;>
      cases sty <;>
      by_cases h1 : strContains (lowerStr nm) "used" <;>
      by_cases h2 : strContains (lowerStr nm) "available" <;>
      simp_all

theorem foldl_ramUAStep (l : List Sensor) : ∀ st : Option ℚ × Option ℚ,
    l.foldl ramUAStep st =
      (olast st.1 (poolOf ramUsageUsedGuard l), olast st.2 (poolOf ramUsageAvailGuard l)) := by
  induction l with
  | nil => intro st; simp [poolOf, olast_nil]
  | cons s rest ih =>
    intro st
    rw [List.foldl_cons, ramUAStep_eq, ih]
    simp [poolOf, olast_append]

theorem ramLoadFirst_eq (l : List Sensor) :
    ramLoadFirst l = (poolOf ramLoadAnyGuard l).head? := by
  induction l with
  | nil => simp [ramLoadFirst, poolOf]
  | cons s rest ih =>
    rcases s with ⟨par, sty, nm, v⟩
    rcases hv : finVal v with _ | q <;>
      by_cases hm : par = HwType.memory <;>
      by_cases hl : sty = SType.load <;>
      simp_all [ramLoadFirst, poolOf, contrib, ramLoadAnyGuard, hv]

theorem netPool_eq (l : List Sensor) :
    netPool l = (poolOf netLoadGuard l).filter (fun v => decide (0 ≤ v ∧ v ≤ 100)) := by
  induction l with
  | nil => simp [netPool, poolOf]
  | cons s rest ih =>
    rcases s with ⟨par, sty, nm, v⟩
    by_cases hm : par = HwType.network
    · by_cases hl : sty = SType.load
      · rcases hv : finVal v with _ | q
        · simp_all [netPool, poolOf, contrib, netLoadGuard, hv]
        · by_cases hr : 0 ≤ q ∧ q ≤ 100 <;>
            simp_all [netPool, poolOf, contrib, netLoadGuard, hv, List.filter_cons, hr]
      · simp_all [netPool, poolOf, contrib, netLoadGuard]
    · simp_all [netPool, poolOf, contrib, netLoadGuard]

theorem poolOf_insert_not_finite (g : Sensor → Bool) (l₁ l₂ : List Sensor) {s : Sensor}
    (h : _is_finite s.value = false) :
    poolOf g (l₁ ++ s :: l₂) = poolOf g (l₁ ++ l₂) := by
  simp [poolOf_append, poolOf, contrib_of_not_finite g h]

theorem findCpuTotal_insert_not_finite (l₁ l₂ : List Sensor) {s : Sensor}
    (h : _is_finite s.value = false) :
    findCpuTotal (l₁ ++ s :: l₂) = findCpuTotal (l₁ ++ l₂) := by
  induction l₁ with
  | nil =>
    by_cases hg : (s.parent = HwType.cpu ∧ s.stype = SType.load ∧ cpuTotalName s = true) <;>
      simp [findCpuTotal, hg, finVal_of_not_finite h]
  | cons a rest ih =>
    by_cases hg : (a.parent = HwType.cpu ∧ a.stype = SType.load ∧ cpuTotalName a = true)
    · cases hva : finVal a.value <;> simp [findCpuTotal, hg, hva, ih]
    · simp [findCpuTotal, hg, ih]

theorem select_cpu_temps_insert_not_finite (l₁ l₂ : List Sensor) {s : Sensor}
    (h : _is_finite s.value = false) :
    _select_cpu_temps (l₁ ++ s :: l₂) = _select_cpu_temps (l₁ ++ l₂) := by
  unfold _select_cpu_temps
  rw [foldl_cpuTempStep, foldl_cpuTempStep]
  simp only [poolOf_insert_not_finite _ _ _ h]

theorem select_cpu_total_load_insert_not_finite (l₁ l₂ : List Sensor) {s : Sensor}
    (h : _is_finite s.value = false) :
    _select_cpu_total_load (l₁ ++ s :: l₂) = _select_cpu_total_load (l₁ ++ l₂) := by
  unfold _select_cpu_total_load
  rw [findCpuTotal_insert_not_finite _ _ h, poolOf_insert_not_finite _ _ _ h]

theorem select_cpu_core_clocks_insert_not_finite (l₁ l₂ : List Sensor) {s : Sensor}
    (h : _is_finite s.value = false) :
    _select_cpu_core_clocks (l₁ ++ s :: l₂) = _select_cpu_core_clocks (l₁ ++ l₂) := by
  unfold _select_cpu_core_clocks
  rw [poolOf_insert_not_finite _ _ _ h]

theorem select_ram_used_free_gb_insert_not_finite (l₁ l₂ : List Sensor) {s : Sensor}
    (h : _is_finite s.value = false) :
    _select_ram_used_free_gb (l₁ ++ s :: l₂) = _select_ram_used_free_gb (l₁ ++ l₂) := by
  unfold _select_ram_used_free_gb
  rw [foldl_ramUFLStep, foldl_ramUFLStep]
  simp only [poolOf_insert_not_finite _ _ _ h]

theorem select_ram_usage_insert_not_finite (l₁ l₂ : List Sensor) {s : Sensor}
    (h : _is_finite s.value = false) :
    _select_ram_usage (l₁ ++ s :: l₂) = _select_ram_usage (l₁ ++ l₂) := by
  unfold _select_ram_usage
  rw [ramLoadFirst_eq, ramLoadFirst_eq, foldl_ramUAStep, foldl_ramUAStep]
  simp only [poolOf_insert_not_finite _ _ _ h]

theorem select_gpu_metrics_insert_not_finite (l₁ l₂ : List Sensor) {s : Sensor}
    (h : _is_finite s.value = false) :
    _select_gpu_metrics (l₁ ++ s :: l₂) = _select_gpu_metrics (l₁ ++ l₂) := by
  unfold _select_gpu_metrics
  rw [foldl_gpuStep, foldl_gpuStep]
  simp only [poolOf_insert_not_finite _ _ _ h]

theorem netLoadSel_insert_not_finite (l₁ l₂ : List Sensor) {s : Sensor}
    (h : _is_finite s.value = false) :
    netLoadSel (l₁ ++ s :: l₂) = netLoadSel (l₁ ++ l₂) := by
  unfold netLoadSel
  rw [netPool_eq, netPool_eq, poolOf_insert_not_finite _ _ _ h]

theorem cpuPowerSel_insert_not_finite (l₁ l₂ : List Sensor) {s : Sensor}
    (h : _is_finite s.value = false) :
    cpuPowerSel (l₁ ++ s :: l₂) = cpuPowerSel (l₁ ++ l₂) := by
  unfold cpuPowerSel
  rw [poolOf_insert_not_finite _ _ _ h]

theorem read_metrics_insert_not_finite (l₁ l₂ : List Sensor) {s : Sensor} (now : ℚ)
    (h : _is_finite s.value = false) :
    read_metrics (l₁ ++ s :: l₂) now = read_metrics (l₁ ++ l₂) now := by
  unfold read_metrics
  rw [select_cpu_temps_insert_not_finite _ _ h,
    select_cpu_total_load_insert_not_finite _ _ h,
    select_cpu_core_clocks_insert_not_finite _ _ h,
    select_ram_used_free_gb_insert_not_finite _ _ h,
    select_gpu_metrics_insert_not_finite _ _ h,
    netLoadSel_insert_not_finite _ _ h,
    cpuPowerSel_insert_not_finite _ _ h]

theorem poolOf_empty_mono {g₁ g₂ : Sensor → Bool} (himp : ∀ s, g₂ s = true → g₁ s = true) :
    ∀ l : List Sensor, poolOf g₁ l = [] → poolOf g₂ l = []
  | [], _ => rfl
  | s :: rest, h => by
    rw [poolOf] at h ⊢
    rcases List.append_eq_nil.mp h with ⟨h1, h2⟩
    rw [poolOf_empty_mono himp rest h2]
    cases hg : g₂ s with
    | false => simp [contrib, hg]
    | true =>
      rw [contrib, himp s hg] at h1
      simp only [if_true] at h1
      simp [contrib, hg, h1]

theorem sensor_keys_nodup : SENSOR_KEYS_DEFAULT.Nodup := by decide

theorem normLoop_mem (order : List String) : ∀ (seen : List String) (k : String),
    k ∈ normLoop order seen ↔ (k ∈ SENSOR_KEYS_DEFAULT ∧ k ∉ seen) := by
  induction order with
  | nil =>
    intro seen k
    simp [normLoop, List.mem_filter]
  | cons key rest ih =>
    intro seen k
    by_cases hc : (aliasToCanon key ∈ SENSOR_KEYS_DEFAULT ∧ aliasToCanon key ∉ seen)
    · by_cases hk : k = aliasToCanon key <;>
        simp_all [normLoop, hc, List.mem_cons, ih]
    · simp [normLoop, hc, ih]

theorem normLoop_nodup (order : List String) : ∀ seen : List String,
    (normLoop order seen).Nodup := by
  induction order with
  | nil =>
    intro seen
    exact List.Nodup.filter _ sensor_keys_nodup
  | cons key rest ih =>
    intro seen
    by_cases hc : (aliasToCanon key ∈ SENSOR_KEYS_DEFAULT ∧ aliasToCanon key ∉ seen)
    · rw [normLoop]
      simp only [hc, if_true]
      refine List.nodup_cons.mpr ⟨?_, ih _⟩
      rw [normLoop_mem]
      simp
    · rw [normLoop]
      simp only [hc, if_false]
      exact ih _

/-- Concrete CPU sensor list of the specification example: CCD readings
60 and 64, Core readings 70 and 85. -/
def cpuExample : List Sensor :=
  [⟨HwType.cpu, SType.temperature, "CPU CCD #1", some (SVal.fin 60)⟩,
   ⟨HwType.cpu, SType.temperature, "CPU CCD #2", some (SVal.fin 64)⟩,
   ⟨HwType.cpu, SType.temperature, "Core #1", some (SVal.fin 70)⟩,
   ⟨HwType.cpu, SType.temperature, "Core #2", some (SVal.fin 85)⟩]

/-- C2: for every sensor list, `_select_cpu_temps` computes `hotspot_temp`
as the max of the Core pool, else of the Package pool, else of the
Mainboard-CPU pool, else absent — never consulting the CCD pool — and
`core_temp` as the average of the first non-empty pool in the order CCD,
Core, Package, Mainboard-CPU, else absent; on the example with CCD readings
60, 64 and Core readings 70, 85 this gives `core_temp = 62` and
`hotspot_temp = 85`. -/
theorem C2_cpu_temperature_selection :
    (∀ sensors : List Sensor,
      _select_cpu_temps sensors = (coreTempSpec sensors, hotspotSpec sensors)) ∧
    _select_cpu_temps cpuExample = (some 62, some 85) := by
  constructor
  · intro sensors
    unfold _select_cpu_temps coreTempSpec hotspotSpec
    rw [foldl_cpuTempStep]
    by_cases hA : poolOf ccdGuard sensors = [] <;>
      by_cases hB : poolOf coreGuard sensors = [] <;>
      by_cases hC : poolOf pkgGuard sensors = [] <;>
      by_cases hD : poolOf mbCpuGuard sensors = [] <;>
      simp_all [firstNonempty, List.isEmpty_iff]
  · have h : cpuExample.foldl cpuTempStep ⟨[], [], [], []⟩ =
        ⟨[60, 64], [70, 85], [], []⟩ := rfl
    simp only [_select_cpu_temps, h]
    norm_num [avgq, List.max?, max_def]

/-- Concrete network sensor list of the specification example: load values
45, 150 and 30. -/
def netExample : List Sensor :=
  [⟨HwType.network, SType.load, "Total", some (SVal.fin 45)⟩,
   ⟨HwType.network, SType.load, "Upload Utilization", some (SVal.fin 150)⟩,
   ⟨HwType.network, SType.load, "Download Utilization", some (SVal.fin 30)⟩]

/-- C3: for every sensor list, the network `usage_percent` candidate set is
exactly the finite Network-device Load values within the inclusive range
0..100 (out-of-range values are discarded, not clamped), the result is the
max of that set, it is absent exactly when no value survives, and on the
example with values 45, 150, 30 it equals 45 (the snapshot carries the
rounded 45 as well). -/
theorem C3_network_usage :
    (∀ sensors : List Sensor,
      netLoadSel sensors =
        ((poolOf netLoadGuard sensors).filter (fun v => decide (0 ≤ v ∧ v ≤ 100))).max?) ∧
    (∀ sensors : List Sensor,
      (netLoadSel sensors = none ↔
        (poolOf netLoadGuard sensors).filter (fun v => decide (0 ≤ v ∧ v ≤ 100)) = [])) ∧
    netLoadSel netExample = some 45 ∧
    (read_metrics netExample 0).net.usage_percent = some 45 := by
  have hpool : netPool netExample = [45, 30] := by
    norm_num [netPool, netExample, finVal]
  have hsel : netLoadSel netExample = some 45 := by
    rw [netLoadSel, hpool]
    norm_num [List.max?, max_def]
  refine ⟨?_, ?_, hsel, ?_⟩
  · intro sensors
    rw [netLoadSel, netPool_eq]
  · intro sensors
    rw [netLoadSel, netPool_eq]
    simp
  · simp only [read_metrics, hsel]
    norm_num [_round_or_none, roundq, rhe]

/-- C9: for every sensor list, `_select_gpu_metrics` splits GPU-scoped
temperature sensors into the disjoint hotspot pool (names containing
"hot spot", "hotspot" or "junction") and the core pool (all other names),
sets `hotspot_temp` to the max of the hotspot pool and `core_temp` to the
max of the core pool, and each output is absent exactly when its pool is
empty. -/
theorem C9_gpu_temperature_pools :
    (∀ sensors : List Sensor,
      (_select_gpu_metrics sensors).1 = (poolOf gpuTempCoreGuard sensors).max? ∧
      (_select_gpu_metrics sensors).2.1 = (poolOf gpuTempHotGuard sensors).max?) ∧
    (∀ s : Sensor, (gpuTempCoreGuard s && gpuTempHotGuard s) = false) ∧
    (∀ sensors : List Sensor,
      ((_select_gpu_metrics sensors).1 = none ↔ poolOf gpuTempCoreGuard sensors = []) ∧
      ((_select_gpu_metrics sensors).2.1 = none ↔ poolOf gpuTempHotGuard sensors = [])) := by
  refine ⟨?_, ?_, ?_⟩
  · intro sensors
    unfold _select_gpu_metrics
    rw [foldl_gpuStep]
    exact ⟨rfl, rfl⟩
  · intro s
    cases h : gpuHotName (lowerStr s.name) <;>
      simp [gpuTempCoreGuard, gpuTempHotGuard, h]
  · intro sensors
    unfold _select_gpu_metrics
    rw [foldl_gpuStep]
    simp

/-- C5: every metric field of the snapshot is the rounding of its raw
selector value at a fixed precision — temperatures and percentages at 1
decimal, clocks at 0 decimals, power at 1 decimal (RAM gigabyte figures at 1
decimal) — an absent value stays absent (never becomes 0), a present value
is rounded half-to-even, and 42.349 rounds to 42.3 while 3799.6 rounds to
3800. -/
theorem C5_fixed_precision_rounding :
    (∀ (sensors : List Sensor) (now : ℚ),
      read_metrics sensors now =
        { cpu :=
            { core_temperature_c := _round_or_none (_select_cpu_temps sensors).1 1
              hotspot_temperature_c := _round_or_none (_select_cpu_temps sensors).2 1
              usage_percent := _round_or_none (_select_cpu_total_load sensors) 1
              max_clock_mhz := _round_or_none (_select_cpu_core_clocks sensors).1 0
              avg_clock_mhz := _round_or_none (_select_cpu_core_clocks sensors).2 0
              power_w := _round_or_none (cpuPowerSel sensors) 1 }
          ram :=
            { usage_percent := _round_or_none (_select_ram_used_free_gb sensors).load 1
              used_gb := _round_or_none (_select_ram_used_free_gb sensors).used 1
              free_gb := _round_or_none (_select_ram_used_free_gb sensors).free 1 }
          gpu :=
            { core_temperature_c := _round_or_none (_select_gpu_metrics sensors).1 1
              hotspot_temperature_c := _round_or_none (_select_gpu_metrics sensors).2.1 1
              usage_percent := _round_or_none (_select_gpu_metrics sensors).2.2.1 1
              core_clock_mhz := _round_or_none (_select_gpu_metrics sensors).2.2.2.1 0
              memory_clock_mhz := _round_or_none (_select_gpu_metrics sensors).2.2.2.2.1 0
              power_w := _round_or_none (_select_gpu_metrics sensors).2.2.2.2.2 1 }
          net := { usage_percent := _round_or_none (netLoadSel sensors) 1 }
          timestamp := now }) ∧
    (∀ d : Nat, _round_or_none none d = none) ∧
    (∀ (q : ℚ) (d : Nat), _round_or_none (some q) d = some (roundq q d)) ∧
    roundq (42349/1000) 1 = 423/10 ∧
    roundq (18998/5) 0 = 3800 := by
  refine ⟨fun sensors now => rfl, fun d => rfl, fun q d => rfl, ?_, ?_⟩
  · norm_num [roundq, rhe]
  · norm_num [roundq, rhe]

/-- C8: the selection-and-rounding pipeline is a pure function of the sensor
list: two `read_metrics` calls on the same sensor list agree on every field
except the timestamp, which is exactly the capture-time argument. -/
theorem C8_deterministic_snapshot :
    ∀ (sensors : List Sensor) (t₁ t₂ : ℚ),
      (read_metrics sensors t₁).cpu = (read_metrics sensors t₂).cpu ∧
      (read_metrics sensors t₁).ram = (read_metrics sensors t₂).ram ∧
      (read_metrics sensors t₁).gpu = (read_metrics sensors t₂).gpu ∧
      (read_metrics sensors t₁).net = (read_metrics sensors t₂).net ∧
      (read_metrics sensors t₁).timestamp = t₁ :=
  fun _ _ _ => ⟨rfl, rfl, rfl, rfl, rfl⟩

/-- Sensor with a NaN reading, used to witness the finite-value filter. -/
def nanSensor : Sensor := ⟨HwType.cpu, SType.temperature, "Core #1", some SVal.nan⟩

/-- Sensor with an ordinary finite reading. -/
def someSensor : Sensor := ⟨HwType.cpu, SType.temperature, "Core #2", some (SVal.fin 70)⟩

/-- C4: `_is_finite` accepts exactly the present finite values; inserting a
sensor with an unusable (absent, NaN or infinite) value anywhere in the list
leaves the whole snapshot — hence every selector feeding it — unchanged, and
likewise for the never-called `_select_ram_usage`; on an empty sensor list
every metric is absent rather than zero, because the empty-pool branches of
max and average are guarded. -/
theorem C4_unusable_values_excluded :
    (∀ v : Option SVal, _is_finite v = true ↔ ∃ q : ℚ, v = some (SVal.fin q)) ∧
    (∀ (l₁ l₂ : List Sensor) (s : Sensor) (now : ℚ),
      _is_finite s.value = false →
        read_metrics (l₁ ++ s :: l₂) now = read_metrics (l₁ ++ l₂) now) ∧
    (∀ (l₁ l₂ : List Sensor) (s : Sensor),
      _is_finite s.value = false →
        _select_ram_usage (l₁ ++ s :: l₂) = _select_ram_usage (l₁ ++ l₂)) ∧
    (∀ now : ℚ, read_metrics [] now =
      { cpu := ⟨none, none, none, none, none, none⟩
        ram := ⟨none, none, none⟩
        gpu := ⟨none, none, none, none, none, none⟩
        net := ⟨none⟩
        timestamp := now }) ∧
    avgq [] = none ∧ ([] : List ℚ).max? = none := by
  refine ⟨?_, ?_, ?_, fun now => rfl, rfl, rfl⟩
  · intro v
    cases v with
    | none => simp [_is_finite, finVal]
    | some sv => cases sv <;> simp [_is_finite, finVal]
  · intro l₁ l₂ s now h
    exact read_metrics_insert_not_finite l₁ l₂ now h
  · intro l₁ l₂ s h
    exact select_ram_usage_insert_not_finite l₁ l₂ h

/-- Witness for C4 at a concrete NaN sensor. -/
theorem C4_witness :
    _is_finite nanSensor.value = false ∧
    read_metrics [someSensor, nanSensor] 0 = read_metrics [someSensor] 0 :=
  ⟨by decide, C4_unusable_values_excluded.2.1 [someSensor] [] nanSensor 0 (by decide)⟩

/-- Concrete RAM sensor list of the specification example: Data sensors
"used" = 8 and "available" = 8, and no Load sensor at all. -/
def c1sensors : List Sensor :=
  [⟨HwType.memory, SType.dat, "Memory Used", some (SVal.fin 8)⟩,
   ⟨HwType.memory, SType.dat, "Memory Available", some (SVal.fin 8)⟩]

/-- C1 counterexample: on the claim's own example — Memory Data sensors
`used = 8` and `available = 8`, no Load sensor (the Memory load pool is
empty) — the derivation path `_select_ram_usage` does yield 50, yet the
snapshot returned by `read_metrics` has `ram.usage_percent` absent, because
`read_metrics` never calls `_select_ram_usage`: it takes the RAM usage
percentage from the Load-sensor capture of `_select_ram_used_free_gb` only.
The claim's `usage_percent = 50.0` (and its "absent only if neither path
yields a value") is therefore false of the code. -/
theorem C1_counterexample :
    poolOf ramLoadAnyGuard c1sensors = [] ∧
    _select_ram_usage c1sensors = some 50 ∧
    (read_metrics c1sensors 0).ram.usage_percent = none := by
  refine ⟨rfl, ?_, rfl⟩
  have h1 : ramLoadFirst c1sensors = none := rfl
  have h2 : c1sensors.foldl ramUAStep (none, none) = (some 8, some 8) := rfl
  simp only [_select_ram_usage, h1, h2]
  norm_num

/-- C1 (amended): when the Memory device has no usable Load-kind sensor and
the fallback scan finds finite "used" and "available" Data values `u` and
`a` with `u + a > 0`, the function `_select_ram_usage` returns
`u / (u + a) * 100`; but `read_metrics` does not call that function, so the
snapshot's `ram.usage_percent` is nevertheless absent under these premises. -/
theorem C1_ram_usage_derivation (sensors : List Sensor) (now : ℚ) (u a : ℚ)
    (hload : poolOf ramLoadAnyGuard sensors = [])
    (hu : (poolOf ramUsageUsedGuard sensors).getLast? = some u)
    (ha : (poolOf ramUsageAvailGuard sensors).getLast? = some a)
    (hpos : u + a > 0) :
    _select_ram_usage sensors = some (u / (u + a) * 100) ∧
    (read_metrics sensors now).ram.usage_percent = none := by
  constructor
  · rw [_select_ram_usage, ramLoadFirst_eq, hload, foldl_ramUAStep]
    simp only [olast, hu, ha, List.head?]
    rw [if_pos hpos]
  · have hufl : poolOf ramUflLoadGuard sensors = [] := by
      refine poolOf_empty_mono ?_ sensors hload
      intro s hs
      simp only [ramUflLoadGuard, Bool.and_eq_true] at hs
      simp [ramLoadAnyGuard, hs.1.1.1, hs.1.2]
    simp only [read_metrics, _select_ram_used_free_gb, foldl_ramUFLStep, hufl, olast_nil,
      _round_or_none]

/-- Witness for C1 at the concrete 8/8 example. -/
theorem C1_witness :
    _select_ram_usage c1sensors = some (8 / (8 + 8) * 100) ∧
    (read_metrics c1sensors 0).ram.usage_percent = none :=
  C1_ram_usage_derivation c1sensors 0 8 8 rfl rfl rfl (by norm_num)

/-- C6: `_normalize_order` always returns a list that contains every
canonical sensor key exactly once and nothing else; recognized keys (after
mapping the legacy alias `cpu_temp` to `cpu_core_temp`) keep their
first-occurrence input order with duplicates and unknown keys dropped, and
the missing canonical keys are appended in default order — illustrated on
the claim's example, on an input with an alias, a duplicate and an unknown
key, and on the full save/load string round trip of
`order = ["gpu_power", "cpu_usage"]`. -/
theorem C6_order_normalization :
    (∀ order : List String, (_normalize_order order).Nodup) ∧
    (∀ (order : List String) (k : String),
      k ∈ _normalize_order order ↔ k ∈ SENSOR_KEYS_DEFAULT) ∧
    _normalize_order ["gpu_power", "cpu_usage"] =
      ["gpu_power", "cpu_usage", "cpu_core_temp", "cpu_hotspot_temp", "net_load",
       "cpu_clock_max", "cpu_clock_avg", "cpu_power", "ram_usage", "ram_used", "ram_free",
       "gpu_core_temp", "gpu_hotspot_temp", "gpu_clock", "gpu_mem_clock", "gpu_usage"] ∧
    _normalize_order ["gpu_power", "bogus", "cpu_temp", "gpu_power", "cpu_usage"] =
      ["gpu_power", "cpu_core_temp", "cpu_usage", "cpu_hotspot_temp", "net_load",
       "cpu_clock_max", "cpu_clock_avg", "cpu_power", "ram_usage", "ram_used", "ram_free",
       "gpu_core_temp", "gpu_hotspot_temp", "gpu_clock", "gpu_mem_clock", "gpu_usage"] ∧
    _normalize_order (parseOrderStr (joinComma (_normalize_order ["gpu_power", "cpu_usage"]))) =
      ["gpu_power", "cpu_usage", "cpu_core_temp", "cpu_hotspot_temp", "net_load",
       "cpu_clock_max", "cpu_clock_avg", "cpu_power", "ram_usage", "ram_used", "ram_free",
       "gpu_core_temp", "gpu_hotspot_temp", "gpu_clock", "gpu_mem_clock", "gpu_usage"] := by
  refine ⟨fun order => normLoop_nodup order [], fun order k => ?_, by decide, by decide, by decide⟩
  rw [_normalize_order, normLoop_mem]
  simp

/-- Initial server state: default order, 1-second interval in memory and on
disk. -/
def st0 : ServerState :=
  ⟨⟨SENSOR_KEYS_DEFAULT, 1⟩, ⟨SENSOR_KEYS_DEFAULT, 1⟩⟩

/-- C7 counterexample: submitting `update_interval_sec = 0.0554` (which is
at least 0.05, so by the claim it should be stored and persisted unchanged)
stores 0.0554 in memory but persists 0.055, because `save_ui_config` writes
the value with the `%.3f` format; the persisted value is therefore not
`max(0.05, value)`. -/
theorem C7_counterexample :
    (config_view_post st0 (some (none, IntervalField.numVal (277/5000)))).2.memCfg.interval
      = 277/5000 ∧
    (config_view_post st0 (some (none, IntervalField.numVal (277/5000)))).2.diskCfg.interval
      = 11/200 ∧
    (11/200 : ℚ) ≠ max (1/20) (277/5000) := by
  refine ⟨?_, ?_, by norm_num [max_def]⟩
  · simp only [config_view_post, save_ui_config, clampInterval]
    norm_num [max_def]
  · simp only [config_view_post, save_ui_config, clampInterval]
    norm_num [max_def, roundq, rhe]

/-- C7 (amended): a numeric `update_interval_sec` submitted via a
configuration write is stored in memory as exactly `max(0.05, value)` —
below 0.05 it is floor-clamped to 0.05, at or above 0.05 it passes through —
and the same clamp applies when reading the persisted file; the persisted
value, however, is `max(0.05, value)` rounded to 3 decimal places by the
`%.3f` write format (so it equals `max(0.05, value)` only when that number
has at most 3 fractional digits, as 0.01 ↦ 0.05 does). -/
theorem C7_interval_clamp (q : ℚ) (st : ServerState) (ord : Option (List String)) :
    (config_view_post st (some (ord, IntervalField.numVal q))).2.memCfg.interval
      = max (1/20) q ∧
    (config_view_post st (some (ord, IntervalField.numVal q))).2.diskCfg.interval
      = roundq (max (1/20) q) 3 ∧
    (q < 1/20 → max (1/20 : ℚ) q = 1/20) ∧
    (1/20 ≤ q → max (1/20 : ℚ) q = q) ∧
    loadInterval (IntervalField.numVal q) = max (1/20) q := by
  refine ⟨?_, ?_, fun h => max_eq_left h.le, fun h => max_eq_right h, rfl⟩
  · simp [config_view_post, save_ui_config, clampInterval]
  · simp [config_view_post, save_ui_config, clampInterval]

/-- Witness for C7 at the claim's example 0.01: it is below the floor, the
clamp yields 0.05, and 0.05 is stored and persisted (0.05 has at most 3
fractional digits, so the persisted value is 0.05 too). -/
theorem C7_witness :
    ((1 : ℚ)/100 < 1/20) ∧ max ((1 : ℚ)/20) (1/100) = 1/20 ∧
    (config_view_post st0 (some (none, IntervalField.numVal (1/100)))).2.memCfg.interval
      = max (1/20) (1/100) ∧
    (config_view_post st0 (some (none, IntervalField.numVal (1/100)))).2.diskCfg.interval
      = roundq (max (1/20) (1/100)) 3 :=
  ⟨by norm_num,
   (C7_interval_clamp (1/100) st0 none).2.2.1 (by norm_num),
   (C7_interval_clamp (1/100) st0 none).1,
   (C7_interval_clamp (1/100) st0 none).2.1⟩

/-- C10: a well-formed configuration write whose `update_interval_sec` is
present but not convertible to a number is not rejected: the response is
`ok` (never a 400, which is reserved for malformed JSON), the in-memory
interval is unchanged, and — provided the prior state satisfies the
invariant maintained by every load and save (clamped, 3-decimal, disk in
sync with memory) — the persisted interval is unchanged as well. -/
theorem C10_bad_interval_ignored (st : ServerState) (ord : Option (List String))
    (hmem : 1/20 ≤ st.memCfg.interval)
    (hq : roundq st.memCfg.interval 3 = st.memCfg.interval)
    (hd : st.diskCfg.interval = st.memCfg.interval) :
    (config_view_post st (some (ord, IntervalField.nonNumeric))).1 = ConfigResp.ok ∧
    (config_view_post st (some (ord, IntervalField.nonNumeric))).2.memCfg.interval
      = st.memCfg.interval ∧
    (config_view_post st (some (ord, IntervalField.nonNumeric))).2.diskCfg.interval
      = st.diskCfg.interval ∧
    (config_view_post st (some (ord, IntervalField.nonNumeric))).1 ≠ ConfigResp.badRequest := by
  have hclamp : clampInterval st.memCfg.interval = st.memCfg.interval :=
    max_eq_right hmem
  cases ord with
  | none =>
    refine ⟨rfl, rfl, ?_, by simp [config_view_post]⟩
    simp [config_view_post, save_ui_config, hclamp, hq, hd]
  | some o =>
    refine ⟨rfl, rfl, ?_, by simp [config_view_post]⟩
    simp [config_view_post, save_ui_config, hclamp, hq, hd]

/-- Witness for C10 at the initial state. -/
theorem C10_witness :
    (config_view_post st0 (some (none, IntervalField.nonNumeric))).1 = ConfigResp.ok ∧
    (config_view_post st0 (some (none, IntervalField.nonNumeric))).2.memCfg.interval = 1 ∧
    (config_view_post st0 (some (none, IntervalField.nonNumeric))).2.diskCfg.interval = 1 :=
  ⟨(C10_bad_interval_ignored st0 none (by norm_num [st0]) (by norm_num [st0, roundq, rhe]) rfl).1,
   (C10_bad_interval_ignored st0 none (by norm_num [st0]) (by norm_num [st0, roundq, rhe]) rfl).2.1,
   (C10_bad_interval_ignored st0 none (by norm_num [st0]) (by norm_num [st0, roundq, rhe]) rfl).2.2.1⟩
